import Mathlib

/-!
Shallow embedding of the MoviePilot plugin `SixtySecondsWorld`
(src/plugins.v2/sixtyseconds/__init__.py).

The plugin fetches a daily news digest from a JSON API, caches it in the
instance attributes `_data` / `_last_update`, renders it into a declarative
widget tree (`get_page`, `get_dashboard`), and optionally posts a
notification message (`__send_notify`).  The Python dict `_data` is modelled
by `Digest` (each key optional, the empty dict being the all-`none` record);
the instance state by `PluginState`; the outcome of the HTTP request made in
`__fetch_data` by `FetchOutcome`; exceptions raised inside the `try` body
by `Except`.  `post_message` is modelled by appending to a message log in
the state.
-/

namespace SixtySeconds

/-- Model of the Python dict `_data`: the digest record cached by the plugin.
Each field models one key the code reads with `.get`; `none` means the key is
absent.  The empty dict (`not self._data` truthy) is the all-`none` record. -/
structure Digest where
  date : Option String
  tip : Option String
  cover : Option String
  news : Option (List String)
  link : Option String
deriving DecidableEq, Repr

/-- The empty dict `{}` assigned to `_data` initially and by
`data.get("data", {})` when the `data` key is absent. -/
def Digest.empty : Digest := ⟨none, none, none, none, none⟩

/-- `self._data.get("date", "")`. -/
def Digest.getDate (d : Digest) : String := d.date.getD ""

/-- `self._data.get("tip", "")`. -/
def Digest.getTip (d : Digest) : String := d.tip.getD ""

/-- `self._data.get("cover", "")`. -/
def Digest.getCover (d : Digest) : String := d.cover.getD ""

/-- `self._data.get("news", [])`. -/
def Digest.getNews (d : Digest) : List String := d.news.getD []

/-- `self._data.get("link", "")`. -/
def Digest.getLink (d : Digest) : String := d.link.getD ""

/-- A message handed to `self.post_message(mtype=..., title=..., text=...)`. -/
structure Message where
  mtype : String
  title : String
  text : String
deriving DecidableEq, Repr

/-- The mutable plugin state: the configuration flags read from `config`,
the cached digest `_data`, the `_last_update` timestamp, and a log of the
messages handed to the host via `post_message`. -/
structure PluginState where
  enabled : Bool
  cron : String
  notify : Bool
  cover : Bool
  data : Digest
  lastUpdate : Option Nat
  messages : List Message
deriving DecidableEq, Repr

/-- The JSON envelope returned by the API: `code` and `data` keys, each
possibly absent (`data.get("code")`, `data.get("data", {})`). -/
structure Envelope where
  code : Option Int
  data : Option Digest
deriving DecidableEq, Repr

/-- Outcome of `RequestUtils(timeout=10).get_res(SIXTY_SECONDS_API)`:
the call may raise a network exception, return `None`, or return a response
with a status code and a body whose JSON parse (`res.json()`) either raises
or yields an envelope. -/
inductive FetchOutcome where
  | exn (msg : String)
  | noResponse
  | response (status : Nat) (body : Except String Envelope)
deriving Repr

/-- `f"\x7bidx+1\x7d. \x7bitem\x7d"`: the numbered line used for news items
in `get_page`, `get_dashboard` and `__send_notify`. -/
def newsLine (idx : Nat) (item : String) : String :=
  toString (idx + 1) ++ ". " ++ item

/-- The notification text assembled by `__send_notify`: a title line with the
date, the tip line, the first five news items numbered, and a link line. -/
def notifyText (d : Digest) : String :=
  "【60秒读懂世界 · " ++ d.getDate ++ "】\n"
    ++ d.getTip ++ "\n\n"
    ++ String.join ((d.getNews.take 5).enum.map (fun p => newsLine p.1 p.2 ++ "\n"))
    ++ "\n查看详情: " ++ d.getLink

/-- The message `__send_notify` hands to `post_message`: type
`NotificationType.SiteMessage`, fixed title, assembled text. -/
def notifyMsg (d : Digest) : Message :=
  ⟨"SiteMessage", "60秒读懂世界", notifyText d⟩

/-- `__send_notify`: a no-op when `_data` is empty, otherwise posts one
message of type `NotificationType.SiteMessage` with the fixed title. -/
def sendNotify (s : PluginState) : PluginState :=
  if s.data = Digest.empty then s
  else { s with messages := s.messages ++ [notifyMsg s.data] }

/-- The notify text as the spec words it: the title line with the date, the
tip line, the first `min 5 length` news items numbered by zipping with the
integer range starting at 1, and the trailing link line. -/
def specNotifyText (d : Digest) : String :=
  "【60秒读懂世界 · " ++ d.getDate ++ "】\n"
    ++ d.getTip ++ "\n\n"
    ++ String.join (List.zipWith (fun i item => toString i ++ ". " ++ item ++ "\n")
         (List.range' 1 (min 5 d.getNews.length)) (d.getNews.take 5))
    ++ "\n查看详情: " ++ d.getLink

/-- The body of the `try` block of `__fetch_data`, evaluated against a given
fetch outcome and clock reading `now`.  `Except.error` models an exception
escaping the body (the network call raising, or `res.json()` raising);
`Except.ok (s, b)` models the body returning `b` with resulting state `s`. -/
def fetchBody (o : FetchOutcome) (now : Nat) (s : PluginState) :
    Except String (PluginState × Bool) :=
  match o with
  | .exn m => .error m
  | .noResponse => .ok (s, false)
  | .response status body =>
    if status = 200 then
      match body with
      | .error m => .error m
      | .ok env =>
        if env.code = some 200 then
          let s1 := { s with data := env.data.getD Digest.empty, lastUpdate := some now }
          let s2 := if s1.notify then sendNotify s1 else s1
          .ok (s2, true)
        else .ok (s, false)
    else .ok (s, false)

/-- `__fetch_data`: the `try` body with the `except Exception` handler wrapped
around it, which logs and falls through to `return False` leaving the state
untouched.  Total: no exception propagates to the caller. -/
def fetchData (o : FetchOutcome) (now : Nat) (s : PluginState) : PluginState × Bool :=
  match fetchBody o now s with
  | .ok r => r
  | .error _ => (s, false)

/-- Whether an outcome takes the success path of `__fetch_data`: a response
with HTTP status 200 whose body parses to an envelope with `code == 200`. -/
def FetchOutcome.isSuccess : FetchOutcome → Bool
  | .exn _ => false
  | .noResponse => false
  | .response status body =>
    if status = 200 then
      match body with
      | .ok env => env.code = some 200
      | .error _ => false
    else false

/-- The event payload dict delivered to `handle_action`
(`event.event_data.get("action")`). -/
structure EventData where
  action : Option String
deriving DecidableEq, Repr

/-- `handle_action`: returns unchanged state unless the event carries
`action == "sixty_seconds"`; otherwise runs `__fetch_data` and then, when
`_notify` is set, `__send_notify` a second time.  `ev = none` models a falsy
`event` or falsy `event.event_data`. -/
def handleAction (ev : Option EventData) (o : FetchOutcome) (now : Nat)
    (s : PluginState) : PluginState :=
  match ev with
  | none => s
  | some evd =>
    if evd.action ≠ some "sixty_seconds" then s
    else
      let s1 := (fetchData o now s).1
      if s1.notify then sendNotify s1 else s1

/-- A property value occurring in the declarative widget tree: the Python
dicts mix strings, numbers and booleans. -/
inductive PropVal where
  | s (v : String)
  | n (v : Int)
  | b (v : Bool)
deriving DecidableEq, Repr

mutual

/-- A node of the declarative widget tree handed to the host frontend: a dict
with `component`, `props`, `text` and `content` keys.  `nil` models a Python
`None` occurring inside a `content` list (the `... if self._cover else None`
expressions leave `None` in place of the image dict). -/
inductive UIElem where
  | nil : UIElem
  | node (component : String) (props : List (String × PropVal))
      (text : Option String) (content : UIList) : UIElem

/-- A `content` list of widget-tree elements. -/
inductive UIList where
  | lnil : UIList
  | lcons (e : UIElem) (es : UIList) : UIList

end

/-- Build a `content` list from a Lean list of elements. -/
def UIList.ofList : List UIElem → UIList
  | [] => .lnil
  | e :: es => .lcons e (UIList.ofList es)

/-- The news-item comprehension of `get_page` (line 281-287): one `div` of
class `mb-2` per `(idx, item)` pair. -/
def pageNewsItem (p : Nat × String) : UIElem :=
  .node "div" [("class", .s "mb-2")] (some (newsLine p.1 p.2)) .lnil

/-- The news-item comprehension of `get_dashboard` (line 380-386): one `div`
of class `mb-1 text-truncate` per `(idx, item)` pair. -/
def dashNewsItem (p : Nat × String) : UIElem :=
  .node "div" [("class", .s "mb-1 text-truncate")] (some (newsLine p.1 p.2)) .lnil

/-- `get_page`, as a function of the cached `_data` and the `_cover` flag:
the "no data" placeholder when `_data` is empty, otherwise the card tree,
with the cover `VImg` present when `_cover` and the Python `None` otherwise. -/
def getPage (d : Digest) (coverFlag : Bool) : UIList :=
  if d = Digest.empty then
    .ofList
      [.node "div" [("class", .s "text-center"), ("style", .s "margin-top: 50px")]
        (some "暂无数据") .lnil]
  else
    .ofList
      [.node "VCard" [] none (.ofList
        [.node "div" [("class", .s "pa-4")] none (.ofList
          [.node "div" [("class", .s "text-h5 mb-2")]
             (some ("60秒读懂世界 · " ++ d.getDate)) .lnil,
           .node "div" [("class", .s "text-caption mb-3")] (some d.getTip) .lnil,
           (if coverFlag then
              .node "VImg" [("src", .s d.getCover), ("max-width", .s "100%"),
                ("class", .s "mb-4")] none .lnil
            else .nil),
           .node "div" [] none (.ofList (d.getNews.enum.map pageNewsItem)),
           .node "div" [("class", .s "mt-4")] none (.ofList
             [.node "a" [("href", .s d.getLink), ("target", .s "_blank"),
                ("class", .s "text-decoration-none")] (some "查看详情") .lnil])])])]

/-- `dashboard_cols`. -/
def dashboardCols : List (String × PropVal) := [("cols", .n 12), ("md", .n 6)]

/-- `dashboard_attrs`. -/
def dashboardAttrs : List (String × PropVal) := [("border", .b false)]

/-- `get_dashboard`, as a function of the cached `_data` and the `_cover`
flag: `None` when `_data` is empty, otherwise the cols/attrs/content triple,
with the news comprehension over the first three items (`[:3]`). -/
def getDashboard (d : Digest) (coverFlag : Bool) :
    Option (List (String × PropVal) × List (String × PropVal) × UIList) :=
  if d = Digest.empty then none
  else some (dashboardCols, dashboardAttrs,
    .ofList
      [.node "VCard" [("class", .s "h-100")] none (.ofList
        [.node "VCardItem" [] none (.ofList
          [.node "VCardTitle" [("class", .s "pa-2")]
             (some ("60秒读懂世界 · " ++ d.getDate)) .lnil,
           .node "VCardSubtitle" [("class", .s "pa-2")] (some d.getTip) .lnil]),
         .node "VCardText" [("class", .s "pa-2")] none (.ofList
           [(if coverFlag then
               .node "VImg" [("src", .s d.getCover), ("max-width", .s "100%"),
                 ("height", .s "auto")] none .lnil
             else .nil)]),
         .node "VCardText" [("class", .s "pa-2")] none
           (.ofList ((d.getNews.take 3).enum.map dashNewsItem)),
         .node "VCardActions" [("class", .s "pa-2")] none (.ofList
           [.node "VBtn" [("variant", .s "text"), ("color", .s "primary"),
              ("href", .s d.getLink), ("target", .s "_blank")]
              (some "查看详情") .lnil])])])

/-- Whether a props dict carries a `class` key whose value is the string
`cls`. -/
def hasClass (props : List (String × PropVal)) (cls : String) : Bool :=
  props.any (fun p => p.1 == "class" && p.2 == PropVal.s cls)

mutual

/-- Collect, in document order, the `text` of a node when its `class`
property is exactly `cls`, together with those of its descendants. -/
def elemTextsWithClass (cls : String) : UIElem → List String
  | .nil => []
  | .node _ props txt content =>
    (if hasClass props cls then txt.toList else [])
      ++ textsWithClass cls content

/-- Collect, in document order, the `text` of every node of the list whose
`class` property is exactly `cls`. -/
def textsWithClass (cls : String) : UIList → List String
  | .lnil => []
  | .lcons e es => elemTextsWithClass cls e ++ textsWithClass cls es

end

/-- The news texts of the dashboard content (empty when the dashboard
renders nothing). -/
def dashTexts (d : Digest) (coverFlag : Bool) : List String :=
  match getDashboard d coverFlag with
  | none => []
  | some t => textsWithClass "mb-1 text-truncate" t.2.2

mutual

/-- Count an element and its descendants (`None` placeholders count one). -/
def countElem : UIElem → Nat
  | .nil => 1
  | .node _ _ _ content => 1 + countElems content

/-- Count every element (nodes and `None` placeholders) in a tree list. -/
def countElems : UIList → Nat
  | .lnil => 0
  | .lcons e es => countElem e + countElems es

end

/-- Whether an element is a `VImg` node. -/
def UIElem.isVImg : UIElem → Bool
  | .node c _ _ _ => c = "VImg"
  | .nil => false

mutual

/-- Remove every `VImg` node inside an element: the literal reading of
"the cover image element removed", applied to descendants. -/
def stripCoverElem : UIElem → UIElem
  | .nil => .nil
  | .node c props txt content => .node c props txt (stripCoverImgs content)

/-- Remove every `VImg` node from a tree list: the literal reading of
"the cover image element removed". -/
def stripCoverImgs : UIList → UIList
  | .lnil => .lnil
  | .lcons e es =>
    if e.isVImg then stripCoverImgs es
    else .lcons (stripCoverElem e) (stripCoverImgs es)

end

mutual

/-- Replace every `VImg` node inside an element by the `None` placeholder. -/
def blankCoverElem : UIElem → UIElem
  | .nil => .nil
  | .node c props txt content =>
    if c = "VImg" then .nil
    else .node c props txt (blankCoverImgs content)

/-- Replace every `VImg` node of a tree list by the `None` placeholder:
what the `... if self._cover else None` expressions actually do. -/
def blankCoverImgs : UIList → UIList
  | .lnil => .lnil
  | .lcons e es => .lcons (blankCoverElem e) (blankCoverImgs es)

end

/-- The trigger object built by the external apscheduler call
`CronTrigger.from_crontab(...)`. -/
structure CronTrigger where
  expr : String
deriving DecidableEq, Repr

/-- Count the maximal runs of non-space characters: the number of
whitespace-separated fields of a crontab expression. -/
def fieldCountAux : List Char → Bool → Nat
  | [], _ => 0
  | ch :: rest, inField =>
    if ch = ' ' then fieldCountAux rest false
    else (if inField then 0 else 1) + fieldCountAux rest true

/-- Number of whitespace-separated fields of a crontab expression. -/
def cronFieldCount (expr : String) : Nat :=
  fieldCountAux expr.toList false

/-- Model of the external `CronTrigger.from_crontab`: apscheduler raises
`ValueError` unless the expression has exactly five whitespace-separated
fields (the form labels the option "5位cron表达式"); raising is modelled by
`Except.error`. -/
def fromCrontab (expr : String) : Except String CronTrigger :=
  if cronFieldCount expr = 5 then .ok ⟨expr⟩
  else .error "Wrong number of fields"

/-- A job registered on the background scheduler by `init_plugin`. -/
structure Job where
  name : String
  trigger : CronTrigger
deriving DecidableEq, Repr

/-- The job-registration step of `init_plugin` (lines 70-89), given
`_enabled` and `_cron`: when enabled and `_cron` is nonempty, the trigger is
built inside `try/except`; on error it logs and registers nothing.  Returns
the list of jobs registered on the scheduler. -/
def initPluginJobs (enabled : Bool) (cron : String) : List Job :=
  if enabled then
    if cron ≠ "" then
      match fromCrontab cron with
      | .ok t => [⟨"60秒读懂世界", t⟩]
      | .error _ => []
    else []
  else []

/-- `get_state`: the plugin reports itself enabled iff `_enabled`. -/
def getState (s : PluginState) : Bool := s.enabled

/-- A public service entry returned by `get_service`. -/
structure ServiceDef where
  id : String
  name : String
  trigger : CronTrigger
deriving DecidableEq, Repr

/-- `get_service` (lines 413-426): `[]` when disabled; otherwise calls
`CronTrigger.from_crontab(self._cron)` with no `try/except`, so a parse
error propagates to the caller (`Except.error`). -/
def getService (s : PluginState) : Except String (List ServiceDef) :=
  if s.enabled then
    (fromCrontab s.cron).map (fun t => [⟨"SixtySeconds", "60秒读懂世界定时服务", t⟩])
  else .ok []

/-- `Except.isOk` as a plain boolean observer. -/
def exOk {α : Type} : Except String α → Bool
  | .ok _ => true
  | .error _ => false

/-- A sample digest with six news items, as in the spec's worked example. -/
def dgEx : Digest :=
  ⟨some "2025-01-01", some "tipline", some "cover-url",
   some ["a", "b", "c", "d", "e", "f"], some "link-url"⟩

/-- A sample state holding `dgEx` with notifications enabled. -/
def sFull : PluginState :=
  ⟨true, "0 8 * * *", true, true, dgEx, some 5, []⟩

/-- A sample enabled state whose cron expression has the wrong number of
fields. -/
def cfgBad : PluginState :=
  ⟨true, "bad cron", false, true, Digest.empty, none, []⟩

/-- The event payload carried by the `/60s` command. -/
def evOk : EventData := ⟨some "sixty_seconds"⟩

theorem sendNotify_data (s : PluginState) : (sendNotify s).data = s.data := by
  unfold sendNotify
  split <;> rfl

theorem sendNotify_lastUpdate (s : PluginState) :
    (sendNotify s).lastUpdate = s.lastUpdate := by
  unfold sendNotify
  split <;> rfl

theorem sendNotify_notify (s : PluginState) : (sendNotify s).notify = s.notify := by
  unfold sendNotify
  split <;> rfl

theorem fetchData_failure_frame (o : FetchOutcome) (now : Nat) (s : PluginState)
    (h : o.isSuccess = false) : fetchData o now s = (s, false) := by
  cases o with
  | exn m => rfl
  | noResponse => rfl
  | response status body =>
    by_cases h200 : status = 200
    · subst h200
      cases body with
      | error m => rfl
      | ok env =>
        have hc : ¬ env.code = some 200 := by
          simpa [FetchOutcome.isSuccess] using h
        simp [fetchData, fetchBody, hc]
    · simp [fetchData, fetchBody, h200]

theorem fetchData_success_form (env : Envelope) (now : Nat) (s : PluginState)
    (hc : env.code = some 200) :
    fetchData (.response 200 (.ok env)) now s
      = (let s1 : PluginState :=
           { s with data := env.data.getD Digest.empty, lastUpdate := some now };
         (if s1.notify then sendNotify s1 else s1, true)) := by
  simp [fetchData, fetchBody, hc]

/-- C1: for every prior cached Digest and every failed fetch (network
exception, absent response, non-200 HTTP status, or envelope whose code
field is not 200), the cached Digest and the recorded update timestamp after
`__fetch_data` equal their values before the call, and the call returns
failure. -/
theorem fetch_failure_keeps_digest (o : FetchOutcome) (now : Nat) (s : PluginState)
    (h : o.isSuccess = false) :
    (fetchData o now s).1.data = s.data
      ∧ (fetchData o now s).1.lastUpdate = s.lastUpdate
      ∧ (fetchData o now s).2 = false := by
  rw [fetchData_failure_frame o now s h]
  exact ⟨rfl, rfl, rfl⟩

theorem fetch_failure_keeps_digest_witness :
    (FetchOutcome.response 200 (.ok ⟨some 500, some Digest.empty⟩)).isSuccess = false
      ∧ ((fetchData (.response 200 (.ok ⟨some 500, some Digest.empty⟩)) 7 sFull).1.data
            = sFull.data
          ∧ (fetchData (.response 200 (.ok ⟨some 500, some Digest.empty⟩)) 7 sFull).1.lastUpdate
              = sFull.lastUpdate
          ∧ (fetchData (.response 200 (.ok ⟨some 500, some Digest.empty⟩)) 7 sFull).2 = false) :=
  ⟨by decide, fetch_failure_keeps_digest _ 7 sFull (by decide)⟩

/-- C2: for every response with HTTP status 200 and envelope code 200
carrying a data field, `__fetch_data` replaces the cached Digest with a
record exactly equal to that data field, records the update timestamp, and
returns success. -/
theorem fetch_success_replaces_digest (d : Digest) (now : Nat) (s : PluginState) :
    (fetchData (.response 200 (.ok ⟨some 200, some d⟩)) now s).1.data = d
      ∧ (fetchData (.response 200 (.ok ⟨some 200, some d⟩)) now s).1.lastUpdate = some now
      ∧ (fetchData (.response 200 (.ok ⟨some 200, some d⟩)) now s).2 = true := by
  rw [fetchData_success_form ⟨some 200, some d⟩ now s rfl]
  refine ⟨?_, ?_, rfl⟩ <;>
    by_cases hn : s.notify <;>
      simp [hn, sendNotify_data, sendNotify_lastUpdate]

/-- C8: for every possible response or error, `__fetch_data` returns a
boolean that is true exactly on the success path, and whenever the `try`
body raises (`fetchBody` errors), the handler catches it and the call
returns `(s, false)`: no exception propagates (`fetchData` is a total
function into `PluginState × Bool`). -/
theorem fetch_total_boolean (o : FetchOutcome) (now : Nat) (s : PluginState) :
    (fetchData o now s).2 = o.isSuccess
      ∧ (exOk (fetchBody o now s) = false → fetchData o now s = (s, false)) := by
  constructor
  · cases o with
    | exn m => rfl
    | noResponse => rfl
    | response status body =>
      by_cases h200 : status = 200
      · subst h200
        cases body with
        | error m => rfl
        | ok env =>
          by_cases hc : env.code = some 200
          · simp [fetchData, fetchBody, FetchOutcome.isSuccess, hc]
          · simp [fetchData, fetchBody, FetchOutcome.isSuccess, hc]
      · simp [fetchData, fetchBody, FetchOutcome.isSuccess, h200]
  · intro hb
    cases o with
    | exn m => rfl
    | noResponse => rfl
    | response status body =>
      by_cases h200 : status = 200
      · subst h200
        cases body with
        | error m => rfl
        | ok env =>
          by_cases hc : env.code = some 200
          · exfalso
            simp [fetchBody, hc, exOk] at hb
          · simp [fetchData, fetchBody, hc]
      · simp [fetchData, fetchBody, h200]

theorem fetch_total_boolean_witness :
    exOk (fetchBody (.exn "boom") 0 sFull) = false
      ∧ fetchData (.exn "boom") 0 sFull = (sFull, false) :=
  ⟨by decide, (fetch_total_boolean (.exn "boom") 0 sFull).2 (by decide)⟩

/-- C9: for every response with HTTP status 200 and envelope code 200 whose
data field is absent, `__fetch_data` stores `data.get("data", {}) = {}`,
i.e. replaces the cached Digest with the empty record (reverting any
previously present Digest to the no-data state), records the update
timestamp, and returns success. -/
theorem fetch_success_absent_data (now : Nat) (s : PluginState) :
    fetchData (.response 200 (.ok ⟨some 200, none⟩)) now s
      = ({ s with data := Digest.empty, lastUpdate := some now }, true) := by
  rw [fetchData_success_form ⟨some 200, none⟩ now s rfl]
  simp [sendNotify]

theorem enumFrom_newsLines (l : List String) (n : Nat) :
    (l.enumFrom n).map (fun p => newsLine p.1 p.2 ++ "\n")
      = List.zipWith (fun i item => toString i ++ ". " ++ item ++ "\n")
          (List.range' (n + 1) l.length) l := by
  induction l generalizing n with
  | nil => rfl
  | cons a l ih =>
    simp only [List.enumFrom, List.map, List.length_cons, List.range', List.zipWith,
      List.cons.injEq]
    exact ⟨rfl, ih (n + 1)⟩

theorem notifyText_eq_spec (d : Digest) : notifyText d = specNotifyText d := by
  unfold notifyText specNotifyText
  rw [show (d.getNews.take 5).enum = (d.getNews.take 5).enumFrom 0 from rfl,
    enumFrom_newsLines, List.length_take]

/-- C4: for every present cached Digest, `__send_notify` builds a message
consisting of a title line with the date, a line with the tip, the first
`min 5 length` news items numbered 1..5 in order (items beyond the fifth
omitted), and a trailing link line, and hands it to `post_message` with the
fixed message type and title; if the Digest is absent, it is a no-op. -/
theorem notify_message_matches (s : PluginState) :
    (s.data = Digest.empty → sendNotify s = s)
      ∧ (s.data ≠ Digest.empty →
          sendNotify s
            = { s with messages :=
                s.messages ++ [⟨"SiteMessage", "60秒读懂世界", specNotifyText s.data⟩] }) := by
  constructor
  · intro h
    simp [sendNotify, h]
  · intro h
    simp [sendNotify, h, notifyMsg, notifyText_eq_spec]

theorem notify_message_matches_witness :
    sendNotify sFull
      = { sFull with messages :=
          sFull.messages ++ [⟨"SiteMessage", "60秒读懂世界", specNotifyText sFull.data⟩] } :=
  (notify_message_matches sFull).2 (by decide)

theorem newsLine_zero (a : String) : newsLine 0 a = "1. " ++ a := rfl

theorem newsLine_one (a : String) : newsLine 1 a = "2. " ++ a := rfl

theorem newsLine_two (a : String) : newsLine 2 a = "3. " ++ a := rfl

theorem newsLine_three (a : String) : newsLine 3 a = "4. " ++ a := rfl

theorem newsLine_four (a : String) : newsLine 4 a = "5. " ++ a := rfl

theorem newsLine_five (a : String) : newsLine 5 a = "6. " ++ a := rfl

/-- C3: for every cached Digest whose news list has six items, the dashboard
render contains exactly the first three news items numbered 1..3 (class
`mb-1 text-truncate`), and the full-page render contains all six items
numbered 1..6 in list order (class `mb-2`), regardless of the cover flag. -/
theorem render_news_truncation (a1 a2 a3 a4 a5 a6 : String) (d : Digest) (cflag : Bool)
    (h : d.news = some [a1, a2, a3, a4, a5, a6]) :
    textsWithClass "mb-2" (getPage d cflag)
        = ["1. " ++ a1, "2. " ++ a2, "3. " ++ a3, "4. " ++ a4, "5. " ++ a5, "6. " ++ a6]
      ∧ dashTexts d cflag = ["1. " ++ a1, "2. " ++ a2, "3. " ++ a3] := by
  obtain ⟨dt, tp, cv, nw, lk⟩ := d
  have h2 : nw = some [a1, a2, a3, a4, a5, a6] := h
  subst h2
  have hne : (⟨dt, tp, cv, some [a1, a2, a3, a4, a5, a6], lk⟩ : Digest) ≠ Digest.empty := by
    simp [Digest.empty]
  cases cflag <;>
    exact ⟨by simp [getPage, hne, Digest.getNews, UIList.ofList, textsWithClass,
        elemTextsWithClass, hasClass, pageNewsItem, List.enum, List.enumFrom,
        newsLine_zero, newsLine_one, newsLine_two, newsLine_three, newsLine_four,
        newsLine_five],
      by simp [dashTexts, getDashboard, hne, Digest.getNews, UIList.ofList, textsWithClass,
        elemTextsWithClass, hasClass, dashNewsItem, List.enum, List.enumFrom,
        newsLine_zero, newsLine_one, newsLine_two]⟩

theorem render_news_truncation_witness :
    dgEx.news = some ["a", "b", "c", "d", "e", "f"]
      ∧ (textsWithClass "mb-2" (getPage dgEx true)
            = ["1. " ++ "a", "2. " ++ "b", "3. " ++ "c", "4. " ++ "d", "5. " ++ "e",
               "6. " ++ "f"]
          ∧ dashTexts dgEx true = ["1. " ++ "a", "2. " ++ "b", "3. " ++ "c"]) :=
  ⟨rfl, render_news_truncation "a" "b" "c" "d" "e" "f" dgEx true rfl⟩

/-- C5: when the cached Digest is absent (the empty dict), `get_page` returns
exactly the single "no data" placeholder element and `get_dashboard` returns
`None`; both renders are total Lean functions of the cached state, so
neither can raise. -/
theorem render_no_data (cflag : Bool) :
    getPage Digest.empty cflag
        = .ofList
            [.node "div" [("class", .s "text-center"), ("style", .s "margin-top: 50px")]
              (some "暂无数据") .lnil]
      ∧ getDashboard Digest.empty cflag = none :=
  ⟨rfl, rfl⟩

theorem pageNews_blank_fixed (l : List (Nat × String)) :
    blankCoverImgs (.ofList (l.map pageNewsItem)) = .ofList (l.map pageNewsItem) := by
  induction l with
  | nil => rfl
  | cons p l ih => simp [UIList.ofList, blankCoverImgs, blankCoverElem, pageNewsItem, ih]

theorem dashNews_blank_fixed (l : List (Nat × String)) :
    blankCoverImgs (.ofList (l.map dashNewsItem)) = .ofList (l.map dashNewsItem) := by
  induction l with
  | nil => rfl
  | cons p l ih => simp [UIList.ofList, blankCoverImgs, blankCoverElem, dashNewsItem, ih]

/-- C6 counterexample: with `cover=false` the render keeps a `None`
placeholder in place of the cover image, so the outputs are not equal to the
`cover=true` outputs with the `VImg` element removed (the element counts
differ on the page render of the sample digest). -/
theorem cover_toggle_not_removed :
    ¬ (getPage dgEx false = stripCoverImgs (getPage dgEx true)
        ∧ getDashboard dgEx false
            = (getDashboard dgEx true).map (fun t => (t.1, t.2.1, stripCoverImgs t.2.2))) := by
  intro h
  exact absurd (congrArg countElems h.1) (by decide)

/-- C6 (amended): for every cached Digest, rendering with `cover=false`
yields both outputs equal to the `cover=true` outputs with the cover image
element replaced by the `None` placeholder, every other element unchanged. -/
theorem cover_toggle_blanks (d : Digest) :
    getPage d false = blankCoverImgs (getPage d true)
      ∧ getDashboard d false
          = (getDashboard d true).map (fun t => (t.1, t.2.1, blankCoverImgs t.2.2)) := by
  by_cases h : d = Digest.empty
  · exact ⟨by simp [getPage, h, UIList.ofList, blankCoverImgs, blankCoverElem],
      by simp [getDashboard, h]⟩
  · exact ⟨by simp [getPage, h, UIList.ofList, blankCoverImgs, blankCoverElem,
        pageNews_blank_fixed],
      by simp [getDashboard, h, UIList.ofList, blankCoverImgs, blankCoverElem,
        dashNews_blank_fixed]⟩

/-- C7 counterexample: with an invalid cron expression and the plugin
enabled, the claim that every registration path catches the error fails:
`get_service` builds the trigger outside any `try/except`, so the error
propagates to its caller. -/
theorem invalid_cron_service_uncaught :
    getState cfgBad = true
      ∧ exOk (fromCrontab cfgBad.cron) = false
      ∧ exOk (getService cfgBad) = false :=
  ⟨rfl, by decide, by decide⟩

/-- C7 (amended): for every configuration whose cron expression is invalid,
`init_plugin` catches the trigger-construction error and registers no job
while `get_state` still reports the configured enabled flag; but on the
`get_service` registration path the error propagates uncaught to the
caller. -/
theorem invalid_cron_schedule (s : PluginState)
    (h : exOk (fromCrontab s.cron) = false) :
    initPluginJobs s.enabled s.cron = []
      ∧ getState s = s.enabled
      ∧ (s.enabled = true → exOk (getService s) = false) := by
  cases hf : fromCrontab s.cron with
  | ok t =>
    rw [hf] at h
    simp [exOk] at h
  | error m =>
    refine ⟨?_, rfl, ?_⟩
    · simp [initPluginJobs, hf]
    · intro he
      simp [getService, he, hf, exOk, Except.map]

theorem invalid_cron_schedule_witness :
    exOk (fromCrontab cfgBad.cron) = false
      ∧ initPluginJobs cfgBad.enabled cfgBad.cron = []
      ∧ exOk (getService cfgBad) = false :=
  ⟨by decide, (invalid_cron_schedule cfgBad (by decide)).1,
    (invalid_cron_schedule cfgBad (by decide)).2.2 rfl⟩

/-- C10 counterexample: a matching trigger with notifications enabled and a
successful fetch whose data field is absent posts no message at all — the
claim that the notification is posted twice fails on this input. -/
theorem action_double_notify_cex :
    (FetchOutcome.response 200 (.ok ⟨some 200, none⟩)).isSuccess = true
      ∧ sFull.notify = true
      ∧ (handleAction (some evOk) (.response 200 (.ok ⟨some 200, none⟩)) 0 sFull).messages
          = sFull.messages :=
  ⟨by decide, rfl, by decide⟩

/-- C10 (amended): for every trigger matching the plugin action, when the
notify flag is enabled, the fetch succeeds and the fetched digest is
non-empty, the notification message is posted twice — once inside
`__fetch_data` and once again by `handle_action` after the fetch returns; a
successful fetch with an absent data field posts none. -/
theorem action_double_notify (d : Digest) (ed : EventData) (now : Nat) (s : PluginState)
    (ha : ed.action = some "sixty_seconds") (hn : s.notify = true)
    (hd : d ≠ Digest.empty) :
    handleAction (some ed) (.response 200 (.ok ⟨some 200, some d⟩)) now s
      = { s with
          data := d
          lastUpdate := some now
          messages := s.messages ++ [notifyMsg d, notifyMsg d] } := by
  simp only [handleAction, ha]
  rw [fetchData_success_form ⟨some 200, some d⟩ now s rfl]
  simp [hn, sendNotify, hd]

theorem action_double_notify_witness :
    handleAction (some evOk) (.response 200 (.ok ⟨some 200, some dgEx⟩)) 3 sFull
      = { sFull with
          data := dgEx
          lastUpdate := some 3
          messages := sFull.messages ++ [notifyMsg dgEx, notifyMsg dgEx] } :=
  action_double_notify dgEx evOk 3 sFull rfl rfl (by decide)

end SixtySeconds
